import Mathlib

/-!
# Stroke tessellation op and DSL expression wrapper

A shallow embedding of `src/gpu/tessellate/GrStrokeTessellateOp.h` and
`src/sksl/dsl/DSLExpression.h`.

Conventions of the embedding:

* a C++ pointer (`T*`, `std::unique_ptr<T>`) is an `Option T`, `none` being `nullptr`;
* a member function guarded by `SkASSERT` returns an `Option`: `none` is the failed
  assertion of a debug build, `some r` is the value returned when the assertion holds;
* a member function that mutates `this` returns the new object next to its C++ result;
* `int` is `Int`; the 32-bit `ShaderFlags` word is a `Nat`, its complement taken modulo `2 ^ 32`.
-/

namespace Skia

/-! ## Types declared outside the two headers -/

/-- Modelled from the spec: the enum `GrStrokeTessellateShader::ShaderFlags` is declared in
`GrStrokeTessellateShader.h`, which is not among the sources. The spec calls it a bit set of
dynamic per-instance attributes; it is the `int`-sized word holding those bits. -/
abbrev ShaderFlags := Nat

/-- Modelled from the spec: `ShaderFlags::kNone`, the empty bit set ("flags = none"). -/
def ShaderFlags.kNone : ShaderFlags := 0

/-- Modelled from the spec: `operator~` on `ShaderFlags`, the complement of the 32-bit word. -/
def flagsNot (a : ShaderFlags) : ShaderFlags := 2 ^ 32 - 1 - a % 2 ^ 32

/-- Modelled from the spec: `GrAAType` (the antialiasing mode) is declared outside the sources;
an enumerator is represented by its underlying integer value. -/
structure GrAAType where
  value : Nat
deriving DecidableEq, Repr

/-- Modelled from the spec: `SkMatrix` is declared outside the sources. The spec compares view
matrices bit for bit, so a matrix is represented by the number coding its bit pattern. -/
structure SkMatrix where
  bits : Nat
deriving DecidableEq, Repr

/-- Modelled from the spec: `SkPath` (path geometry) is declared outside the sources; an
uninterpreted value, coded by a number. -/
structure SkPath where
  bits : Nat
deriving DecidableEq, Repr

/-- Modelled from the spec: `SkStrokeRec` (width, cap, join, miter limit, hairline flag) is
declared outside the sources; an uninterpreted value, coded by a number. -/
structure SkStrokeRec where
  bits : Nat
deriving DecidableEq, Repr

/-- Modelled from the spec: `SkPMColor4f` (premultiplied color) is declared outside the sources;
an uninterpreted value, coded by a number. -/
structure SkPMColor4f where
  bits : Nat
deriving DecidableEq, Repr

/-- Modelled from the spec: `GrProgramInfo` (an opaque GPU program object) is declared outside
the sources; an uninterpreted value, coded by a number. -/
structure GrProgramInfo where
  handle : Nat
deriving DecidableEq, Repr

/-- Modelled from the spec: `GrShaderCaps` is declared outside the sources; the capability
object reports tessellation-stage hardware support, the only query the op makes. -/
structure GrShaderCaps where
  fTessellationSupport : Bool
deriving DecidableEq, Repr

/-- Modelled from the spec: the query `GrShaderCaps::tessellationSupport()`. -/
def GrShaderCaps.tessellationSupport (s : GrShaderCaps) : Bool := s.fTessellationSupport

/-- Modelled from the spec: `GrCaps` is declared outside the sources; it owns the shader
capabilities that `caps.shaderCaps()` hands out. -/
structure GrCaps where
  fShaderCaps : GrShaderCaps
deriving DecidableEq, Repr

/-- Modelled from the spec: the accessor `GrCaps::shaderCaps()`. -/
def GrCaps.shaderCaps (c : GrCaps) : GrShaderCaps := c.fShaderCaps

/-- Modelled from the spec: `GrProcessorSet` (the paint-effect set) is declared outside the
sources. `effects` codes its contents; `fUsesVaryingCoords` is the answer of its read-only query
"uses fragment-varying coordinates". -/
structure GrProcessorSet where
  effects : Nat
  fUsesVaryingCoords : Bool
deriving DecidableEq, Repr

/-- Modelled from the spec: the query `GrProcessorSet::usesVaryingCoords()`. -/
def GrProcessorSet.usesVaryingCoords (p : GrProcessorSet) : Bool := p.fUsesVaryingCoords

/-- Modelled from the spec: `GrOp::CombineResult` is declared outside the sources; the spec
knows two outcomes of a combine, success (`kMerged`) and failure (`kCannotCombine`). -/
inductive CombineResult where
  | kMerged
  | kCannotCombine
deriving DecidableEq, Repr

/-! ## `GrStrokeTessellateOp.h` -/

/-- The record `GrStrokeTessellator::PathStroke`. -/
structure PathStroke where
  fPath : SkPath
  fStroke : SkStrokeRec
  fColor : SkPMColor4f
deriving DecidableEq, Repr

/-- The state of the abstract class `GrStrokeTessellator`: its only data member. -/
structure GrStrokeTessellator where
  fShaderFlags : ShaderFlags
deriving DecidableEq, Repr

/-- Modelled from the spec: `GrSTArenaList<PathStroke>` is declared in `GrSTArenaList.h`, which
is not among the sources; an ordered sequence of path-strokes. -/
abbrev GrSTArenaList := List PathStroke

/-- Modelled from the spec: `GrSTArenaList::concat`, missing with its class: "splice that
transfers ownership of other's entries; other becomes empty". Returns the receiving list and
what is left of the other one. -/
def GrSTArenaList.concat (self other : GrSTArenaList) : GrSTArenaList × GrSTArenaList :=
  (self ++ other, [])

/-- The data members of `GrStrokeTessellateOp`, with their default member initialisers. -/
structure GrStrokeTessellateOp where
  fAAType : GrAAType
  fViewMatrix : SkMatrix
  fShaderFlags : ShaderFlags := ShaderFlags.kNone
  fPathStrokeList : GrSTArenaList
  fTotalCombinedVerbCnt : Int := 0
  fProcessors : GrProcessorSet
  fNeedsStencil : Bool := false
  fTessellator : Option GrStrokeTessellator := none
  fStencilProgram : Option GrProgramInfo := none
  fFillProgram : Option GrProgramInfo := none
deriving DecidableEq, Repr

namespace GrStrokeTessellateOp

/-- The constant `kMaxVerbsToEnableDynamicState` local to `shouldUseDynamicStates`. -/
def kMaxVerbsToEnableDynamicState : Int := 50

/-- The member `shouldUseDynamicStates`: use the dynamic states if they are all enabled already
or the op does not have many verbs. -/
def shouldUseDynamicStates (op : GrStrokeTessellateOp) (neededDynamicStates : ShaderFlags) :
    Bool :=
  let anyStateDisabled : Bool := (flagsNot op.fShaderFlags &&& neededDynamicStates) != 0
  let allStatesEnabled : Bool := !anyStateDisabled
  allStatesEnabled || decide (op.fTotalCombinedVerbCnt ≤ kMaxVerbsToEnableDynamicState)

/-- The condition of the `SkASSERT` that opens `canUseHardwareTessellation`:
`!fStencilProgram && !fFillProgram`. -/
def programsUnset (op : GrStrokeTessellateOp) : Bool :=
  op.fStencilProgram.isNone && op.fFillProgram.isNone

/-- The member `canUseHardwareTessellation`; `none` is the failed `SkASSERT`. -/
def canUseHardwareTessellation (op : GrStrokeTessellateOp) (caps : GrCaps) : Option Bool :=
  if op.programsUnset then
    some (caps.shaderCaps.tessellationSupport && !op.fProcessors.usesVaryingCoords)
  else
    none

/-- Modelled from the spec: the constructor is only declared in the header, its body is not
among the sources. The fields it computes from the draw request are taken as given; the
tessellator and the two program pointers keep their default member initialisers, the Created
state owning no constructed tessellator or program. -/
def created (aaType : GrAAType) (viewMatrix : SkMatrix) (shaderFlags : ShaderFlags)
    (pathStrokeList : GrSTArenaList) (totalCombinedVerbCnt : Int)
    (processors : GrProcessorSet) (needsStencil : Bool) : GrStrokeTessellateOp :=
  { fAAType := aaType
    fViewMatrix := viewMatrix
    fShaderFlags := shaderFlags
    fPathStrokeList := pathStrokeList
    fTotalCombinedVerbCnt := totalCombinedVerbCnt
    fProcessors := processors
    fNeedsStencil := needsStencil }

/-- Modelled from the spec: `onCombineIfPossible` is only declared in the header, its body is not
among the sources. The spec: combine "succeeds only if all of: same antialiasing mode, same view
matrix (bit-identical), same paint-effect set", and for "identical AA mode, matrix, and effect
set, combine succeeds". "On success: splice other's PathStrokeList into this; OR the ShaderFlags;
add verb counts; needsStencil = needsStencil(this) || needsStencil(other); other is left
empty/discarded. On failure, both ops remain independent." Returns the result, this op and the
other op after the call. The verb counts are added as integers: the `int` addition of the C++
is defined only while the sum fits an `int`. -/
def onCombineIfPossible (self other : GrStrokeTessellateOp) :
    CombineResult × GrStrokeTessellateOp × GrStrokeTessellateOp :=
  if self.fAAType = other.fAAType ∧ self.fViewMatrix = other.fViewMatrix ∧
      self.fProcessors = other.fProcessors then
    let lists := GrSTArenaList.concat self.fPathStrokeList other.fPathStrokeList
    (CombineResult.kMerged,
     { self with
        fPathStrokeList := lists.1
        fShaderFlags := self.fShaderFlags ||| other.fShaderFlags
        fTotalCombinedVerbCnt := self.fTotalCombinedVerbCnt + other.fTotalCombinedVerbCnt
        fNeedsStencil := self.fNeedsStencil || other.fNeedsStencil },
     { other with fPathStrokeList := lists.2 })
  else
    (CombineResult.kCannotCombine, self, other)

end GrStrokeTessellateOp

/-! ## `DSLExpression.h` -/

/-- Modelled from the spec: `SkSL::Expression` is declared in `SkSLExpression.h`, which is not
among the sources; the spec calls it an AST node, here an uninterpreted value coded by a
number. -/
structure Expression where
  node : Nat
deriving DecidableEq, Repr

/-- The class `SkSL::dsl::DSLExpression`: its only data member, a `std::unique_ptr`. -/
structure DSLExpression where
  fExpression : Option Expression
deriving DecidableEq, Repr

namespace DSLExpression

/-- The member `hasValue`: `fExpression != nullptr`. -/
def hasValue (e : DSLExpression) : Bool := e.fExpression != none

/-- The expression `std::move(fExpression)` used to initialise a returned `std::unique_ptr`:
the result takes the pointer and the member is left null. -/
def moveExpression (e : DSLExpression) : Option Expression × DSLExpression :=
  (e.fExpression, { e with fExpression := none })

/-- The member `release`; `none` is the failed `SkASSERT(this->hasValue())`. -/
def release (e : DSLExpression) : Option (Option Expression × DSLExpression) :=
  if e.hasValue then some e.moveExpression else none

/-- The member `releaseIfPossible`. -/
def releaseIfPossible (e : DSLExpression) : Option Expression × DSLExpression :=
  e.moveExpression

end DSLExpression

/-! ## Concrete states used to exercise the statements -/

/-- An op in its Created state: one stroke, 10 verbs, no flags. -/
def scenarioA : GrStrokeTessellateOp :=
  GrStrokeTessellateOp.created ⟨0⟩ ⟨1⟩ ShaderFlags.kNone [⟨⟨1⟩, ⟨1⟩, ⟨1⟩⟩] 10 ⟨0, false⟩ false

/-- An op in its Created state: one stroke, 5 verbs, no flags, same matrix, antialiasing mode
and effects as `scenarioA`, and a stroke that needs the stencil pass. -/
def scenarioB : GrStrokeTessellateOp :=
  GrStrokeTessellateOp.created ⟨0⟩ ⟨1⟩ ShaderFlags.kNone [⟨⟨2⟩, ⟨2⟩, ⟨2⟩⟩] 5 ⟨0, false⟩ true

/-- As `scenarioB`, under another view matrix. -/
def scenarioC : GrStrokeTessellateOp :=
  GrStrokeTessellateOp.created ⟨0⟩ ⟨2⟩ ShaderFlags.kNone [⟨⟨2⟩, ⟨2⟩, ⟨2⟩⟩] 5 ⟨0, false⟩ true

/-- A large batch: 51 verbs, with only bit 2 of the flags enabled. -/
def scenarioLarge : GrStrokeTessellateOp :=
  GrStrokeTessellateOp.created ⟨0⟩ ⟨1⟩ 4 [⟨⟨3⟩, ⟨3⟩, ⟨3⟩⟩] 51 ⟨0, false⟩ false

/-- Capabilities of a GPU with a tessellation stage. -/
def capsWithTessellation : GrCaps := ⟨⟨true⟩⟩

/-- A DSL expression holding the node 7. -/
def exprSeven : DSLExpression := ⟨some ⟨7⟩⟩

/-- A DSL expression without a value. -/
def exprEmpty : DSLExpression := ⟨none⟩

/-! ## Bit-level facts about `ShaderFlags` -/

/-- Bit `i` of the complement: set exactly when `i` is one of the 32 positions and clear in
the argument. -/
theorem testBit_flagsNot (a : ShaderFlags) (i : Nat) :
    (flagsNot a).testBit i = (decide (i < 32) && !a.testBit i) := by
  have hlt : a % 2 ^ 32 < 2 ^ 32 := Nat.mod_lt _ (by norm_num)
  have h := Nat.testBit_two_pow_sub_succ hlt i
  have he : flagsNot a = 2 ^ 32 - (a % 2 ^ 32 + 1) := by
    unfold flagsNot
    rw [Nat.sub_sub, Nat.add_comm]
  rw [he, h, Nat.testBit_mod_two_pow]
  by_cases hi : i < 32 <;> simp [hi]

/-- The requested mask has no bit outside the current flags exactly when each of its 32 bits
is also a bit of the current flags. -/
theorem land_flagsNot_eq_zero_iff (N F : ShaderFlags) :
    N &&& flagsNot F = 0 ↔ ∀ i, i < 32 → N.testBit i = true → F.testBit i = true := by
  constructor
  · intro h i hi hN
    have hb : (N &&& flagsNot F).testBit i = false := by rw [h]; exact Nat.zero_testBit i
    rw [Nat.testBit_and, testBit_flagsNot, hN] at hb
    simpa [hi] using hb
  · intro h
    apply Nat.eq_of_testBit_eq
    intro i
    rw [Nat.testBit_and, testBit_flagsNot, Nat.zero_testBit]
    by_cases hi : i < 32
    · by_cases hN : N.testBit i = true
      · simp [hi, hN, h i hi hN]
      · simp [hN]
    · simp [hi]

/-- The value of `shouldUseDynamicStates`, with the mask written as in the spec. -/
theorem shouldUseDynamicStates_true_iff (op : GrStrokeTessellateOp) (N : ShaderFlags) :
    op.shouldUseDynamicStates N = true ↔
      (N &&& flagsNot op.fShaderFlags = 0 ∨ op.fTotalCombinedVerbCnt ≤ 50) := by
  simp [GrStrokeTessellateOp.shouldUseDynamicStates,
    GrStrokeTessellateOp.kMaxVerbsToEnableDynamicState, Nat.land_comm]

/-- A union of masks lies inside the current flags exactly when both masks do. -/
theorem lor_land_flagsNot_eq_zero_iff (A B F : ShaderFlags) :
    (A ||| B) &&& flagsNot F = 0 ↔ A &&& flagsNot F = 0 ∧ B &&& flagsNot F = 0 := by
  simp only [land_flagsNot_eq_zero_iff, Nat.testBit_or, Bool.or_eq_true]
  constructor
  · intro h
    exact ⟨fun i hi hA => h i hi (Or.inl hA), fun i hi hB => h i hi (Or.inr hB)⟩
  · rintro ⟨hA, hB⟩ i hi (h | h)
    · exact hA i hi h
    · exact hB i hi h

/-! ## The dynamic-state heuristic -/

/-- C1: for every op state and every requested mask `N`, `shouldUseDynamicStates N` is true
exactly when `N & ~F` is zero or the total verb count is at most 50; so it is true for every
mask when the count is at most 50, true for every count when `N & ~F` is zero, and false when
the count is at least 51 and `N` has one of the 32 bits that `F` lacks. -/
theorem shouldUseDynamicStates_spec (op : GrStrokeTessellateOp) (N : ShaderFlags) :
    (op.shouldUseDynamicStates N = true ↔
      (N &&& flagsNot op.fShaderFlags = 0 ∨ op.fTotalCombinedVerbCnt ≤ 50)) ∧
    (op.fTotalCombinedVerbCnt ≤ 50 → op.shouldUseDynamicStates N = true) ∧
    (N &&& flagsNot op.fShaderFlags = 0 → op.shouldUseDynamicStates N = true) ∧
    (51 ≤ op.fTotalCombinedVerbCnt →
      (∃ i, i < 32 ∧ N.testBit i = true ∧ op.fShaderFlags.testBit i = false) →
      op.shouldUseDynamicStates N = false) := by
  refine ⟨shouldUseDynamicStates_true_iff op N, ?_, ?_, ?_⟩
  · intro h
    exact (shouldUseDynamicStates_true_iff op N).2 (Or.inr h)
  · intro h
    exact (shouldUseDynamicStates_true_iff op N).2 (Or.inl h)
  · rintro hn ⟨i, hi, hN, hF⟩
    rw [← Bool.not_eq_true, shouldUseDynamicStates_true_iff]
    rintro (h | h)
    · have := (land_flagsNot_eq_zero_iff N op.fShaderFlags).1 h i hi hN
      rw [hF] at this
      exact Bool.false_ne_true this
    · omega

/-- The heuristic on concrete states: the 10-verb op accepts the mask 12 although none of its bits is
enabled, and the 51-verb op with flags 4 accepts the mask 4 and rejects the mask 12. -/
theorem shouldUseDynamicStates_spec_witness :
    scenarioA.shouldUseDynamicStates 12 = true ∧
    scenarioLarge.shouldUseDynamicStates 4 = true ∧
    scenarioLarge.shouldUseDynamicStates 12 = false :=
  ⟨(shouldUseDynamicStates_spec scenarioA 12).2.1 (by decide),
   (shouldUseDynamicStates_spec scenarioLarge 4).2.2.1 (by decide),
   (shouldUseDynamicStates_spec scenarioLarge 12).2.2.2 (by decide)
     ⟨3, by decide, by decide, by decide⟩⟩

/-- C9: for every op state and masks `A`, `B`, `shouldUseDynamicStates (A | B)` is true exactly
when it is true of `A` and of `B`; hence it is true of `kNone`, and true of every sub-mask of a
mask it is true of. -/
theorem shouldUseDynamicStates_union (op : GrStrokeTessellateOp) (A B : ShaderFlags) :
    (op.shouldUseDynamicStates (A ||| B) = true ↔
      (op.shouldUseDynamicStates A = true ∧ op.shouldUseDynamicStates B = true)) ∧
    op.shouldUseDynamicStates ShaderFlags.kNone = true ∧
    (A &&& B = A → op.shouldUseDynamicStates B = true → op.shouldUseDynamicStates A = true) := by
  refine ⟨?_, ?_, ?_⟩
  · simp only [shouldUseDynamicStates_true_iff, lor_land_flagsNot_eq_zero_iff]
    tauto
  · rw [shouldUseDynamicStates_true_iff]
    exact Or.inl (by simp [ShaderFlags.kNone])
  · intro hsub
    simp only [shouldUseDynamicStates_true_iff]
    rintro (h | h)
    · left
      rw [← hsub, Nat.land_assoc, h, Nat.and_zero]
    · exact Or.inr h

/-- Unions of masks on a concrete state: the 51-verb op with flags 4 rejects the mask 12 = 4 | 8 because it
rejects 8, and accepts the sub-mask 4 of the accepted mask 4. -/
theorem shouldUseDynamicStates_union_witness :
    (scenarioLarge.shouldUseDynamicStates (4 ||| 8) = true ↔
      (scenarioLarge.shouldUseDynamicStates 4 = true ∧
        scenarioLarge.shouldUseDynamicStates 8 = true)) ∧
    scenarioLarge.shouldUseDynamicStates 4 = true :=
  ⟨(shouldUseDynamicStates_union scenarioLarge 4 8).1,
   (shouldUseDynamicStates_union scenarioLarge 4 4).2.2 (by decide) (by decide)⟩

/-! ## Hardware-tessellation eligibility -/

/-- The assertion of `canUseHardwareTessellation` holds exactly when both program pointers are
null. -/
theorem programsUnset_iff (op : GrStrokeTessellateOp) :
    op.programsUnset = true ↔ (op.fStencilProgram = none ∧ op.fFillProgram = none) := by
  simp [GrStrokeTessellateOp.programsUnset, Option.isNone_iff_eq_none]

/-- C2: on an op with neither program constructed, `canUseHardwareTessellation caps` returns,
and returns true exactly when the caps report tessellation support and the processor set does
not use varying coords; so it returns false without tessellation support, and false when the
processor set uses varying coords. -/
theorem canUseHardwareTessellation_spec (op : GrStrokeTessellateOp) (caps : GrCaps)
    (h : op.fStencilProgram = none ∧ op.fFillProgram = none) :
    (∃ b, op.canUseHardwareTessellation caps = some b) ∧
    (op.canUseHardwareTessellation caps = some true ↔
      (caps.shaderCaps.tessellationSupport = true ∧
        op.fProcessors.usesVaryingCoords = false)) ∧
    (caps.shaderCaps.tessellationSupport = false →
      op.canUseHardwareTessellation caps = some false) ∧
    (op.fProcessors.usesVaryingCoords = true →
      op.canUseHardwareTessellation caps = some false) := by
  have hp : op.programsUnset = true := (programsUnset_iff op).2 h
  simp only [GrStrokeTessellateOp.canUseHardwareTessellation, hp, if_true]
  refine ⟨⟨_, rfl⟩, ?_, ?_, ?_⟩
  · simp
  · intro ht
    simp [ht]
  · intro hv
    simp [hv]

/-- Eligibility on a concrete state: the Created op `scenarioA`, whose processors use no varying
coords, may use hardware tessellation on a GPU that supports it. -/
theorem canUseHardwareTessellation_spec_witness :
    (scenarioA.fStencilProgram = none ∧ scenarioA.fFillProgram = none) ∧
    scenarioA.canUseHardwareTessellation capsWithTessellation = some true :=
  ⟨⟨rfl, rfl⟩,
   (canUseHardwareTessellation_spec scenarioA capsWithTessellation ⟨rfl, rfl⟩).2.1.2
     ⟨rfl, rfl⟩⟩

/-- C6: the assertion guarding `canUseHardwareTessellation` passes exactly when the stencil
program and the fill program are both null; it passes on every op in its Created state, and
fails on every state whose fill program or stencil program is set. -/
theorem canUseHardwareTessellation_assertion (op : GrStrokeTessellateOp) (caps : GrCaps) :
    ((op.canUseHardwareTessellation caps).isSome = true ↔
      (op.fStencilProgram = none ∧ op.fFillProgram = none)) ∧
    (∀ aa m f l n p s,
      ((GrStrokeTessellateOp.created aa m f l n p s).canUseHardwareTessellation caps).isSome
        = true) ∧
    ((op.fFillProgram ≠ none ∨ op.fStencilProgram ≠ none) →
      op.canUseHardwareTessellation caps = none) := by
  refine ⟨?_, ?_, ?_⟩
  · rw [← programsUnset_iff]
    cases hp : op.programsUnset <;>
      simp [GrStrokeTessellateOp.canUseHardwareTessellation, hp]
  · intro aa m f l n p s
    rfl
  · intro h
    have hp : op.programsUnset = false := by
      rw [← Bool.not_eq_true, programsUnset_iff]
      rintro ⟨hs, hf⟩
      rcases h with h | h
      · exact h hf
      · exact h hs
    simp [GrStrokeTessellateOp.canUseHardwareTessellation, hp]

/-- The guard on a concrete state: once the fill program of `scenarioA` is set, the assertion
fails. -/
theorem canUseHardwareTessellation_assertion_witness :
    GrStrokeTessellateOp.canUseHardwareTessellation
      { scenarioA with fFillProgram := some ⟨1⟩ } capsWithTessellation = none :=
  (canUseHardwareTessellation_assertion
    { scenarioA with fFillProgram := some ⟨1⟩ } capsWithTessellation).2.2
    (Or.inl (by decide))

/-! ## The combine protocol -/

/-- C3: two ops whose view matrices differ do not combine, and both are left as they were,
whatever their other fields. -/
theorem onCombineIfPossible_matrix_mismatch (a b : GrStrokeTessellateOp)
    (h : a.fViewMatrix ≠ b.fViewMatrix) :
    a.onCombineIfPossible b = (CombineResult.kCannotCombine, a, b) := by
  simp [GrStrokeTessellateOp.onCombineIfPossible, h]

/-- A refused combine on concrete states: `scenarioA` and `scenarioC` agree on antialiasing mode and effects
and differ in the view matrix only. -/
theorem onCombineIfPossible_matrix_mismatch_witness :
    scenarioA.fAAType = scenarioC.fAAType ∧ scenarioA.fProcessors = scenarioC.fProcessors ∧
    scenarioA.fViewMatrix ≠ scenarioC.fViewMatrix ∧
    scenarioA.onCombineIfPossible scenarioC = (CombineResult.kCannotCombine, scenarioA, scenarioC) :=
  ⟨rfl, rfl, by decide, onCombineIfPossible_matrix_mismatch scenarioA scenarioC (by decide)⟩

/-- C4: two ops with the same antialiasing mode, view matrix and paint-effect set combine; the
merged op's verb count is the sum of the two counts, its flags are the bitwise union of the two
flag words, and its path-stroke list is this op's entries followed by the other's. -/
theorem onCombineIfPossible_merge (a b : GrStrokeTessellateOp)
    (haa : a.fAAType = b.fAAType) (hm : a.fViewMatrix = b.fViewMatrix)
    (hp : a.fProcessors = b.fProcessors) :
    (a.onCombineIfPossible b).1 = CombineResult.kMerged ∧
    (a.onCombineIfPossible b).2.1.fTotalCombinedVerbCnt =
      a.fTotalCombinedVerbCnt + b.fTotalCombinedVerbCnt ∧
    (a.onCombineIfPossible b).2.1.fShaderFlags = a.fShaderFlags ||| b.fShaderFlags ∧
    (∀ i, (a.onCombineIfPossible b).2.1.fShaderFlags.testBit i =
      (a.fShaderFlags.testBit i || b.fShaderFlags.testBit i)) ∧
    (a.onCombineIfPossible b).2.1.fPathStrokeList = a.fPathStrokeList ++ b.fPathStrokeList := by
  simp [GrStrokeTessellateOp.onCombineIfPossible, GrSTArenaList.concat, haa, hm, hp]

/-- A merge on the spec's scenario: one stroke with 10 verbs and no flags merged with one stroke
with 5 verbs and no flags gives 2 strokes, 15 verbs, no flags. -/
theorem onCombineIfPossible_merge_witness :
    (scenarioA.onCombineIfPossible scenarioB).1 = CombineResult.kMerged ∧
    (scenarioA.onCombineIfPossible scenarioB).2.1.fTotalCombinedVerbCnt = 15 ∧
    (scenarioA.onCombineIfPossible scenarioB).2.1.fShaderFlags = ShaderFlags.kNone ∧
    (scenarioA.onCombineIfPossible scenarioB).2.1.fPathStrokeList.length = 2 :=
  have h := onCombineIfPossible_merge scenarioA scenarioB rfl rfl rfl
  ⟨h.1, h.2.1.trans (by decide), h.2.2.1.trans (by decide),
   (congrArg List.length h.2.2.2.2).trans (by decide)⟩

/-- C5: after every successful combine the merged op's `needsStencil` is the disjunction of
the two inputs' flags; merging false with true gives true, and a flag that was true on either
input stays true. -/
theorem onCombineIfPossible_needsStencil (a b : GrStrokeTessellateOp)
    (h : (a.onCombineIfPossible b).1 = CombineResult.kMerged) :
    (a.onCombineIfPossible b).2.1.fNeedsStencil = (a.fNeedsStencil || b.fNeedsStencil) ∧
    (a.fNeedsStencil = false → b.fNeedsStencil = true →
      (a.onCombineIfPossible b).2.1.fNeedsStencil = true) ∧
    (a.fNeedsStencil = true → (a.onCombineIfPossible b).2.1.fNeedsStencil = true) ∧
    (b.fNeedsStencil = true → (a.onCombineIfPossible b).2.1.fNeedsStencil = true) := by
  have hv : (a.onCombineIfPossible b).2.1.fNeedsStencil =
      (a.fNeedsStencil || b.fNeedsStencil) := by
    unfold GrStrokeTessellateOp.onCombineIfPossible at h ⊢
    split at h
    · rename_i hc
      rw [if_pos hc]
    · simp at h
  refine ⟨hv, ?_, ?_, ?_⟩
  · intro _ hb
    rw [hv, hb, Bool.or_true]
  · intro ha
    rw [hv, ha, Bool.true_or]
  · intro hb
    rw [hv, hb, Bool.or_true]

/-- The stencil flag on the spec's scenario: `scenarioA` does not need the stencil pass, `scenarioB` does,
they combine, and the merged op needs it. -/
theorem onCombineIfPossible_needsStencil_witness :
    scenarioA.fNeedsStencil = false ∧ scenarioB.fNeedsStencil = true ∧
    (scenarioA.onCombineIfPossible scenarioB).1 = CombineResult.kMerged ∧
    (scenarioA.onCombineIfPossible scenarioB).2.1.fNeedsStencil = true :=
  ⟨rfl, rfl, by decide,
   (onCombineIfPossible_needsStencil scenarioA scenarioB (by decide)).2.1 rfl rfl⟩

/-! ## Releasing a DSL expression -/

/-- C7: `release` on an expression that has a value returns exactly the expression held and
leaves the object without a value; on an object without a value its assertion fails. -/
theorem release_spec (e : DSLExpression) :
    (e.hasValue = true →
      ∃ x r, e.fExpression = some x ∧ e.release = some (some x, r) ∧ r.hasValue = false ∧
        r.fExpression = none) ∧
    (e.hasValue = false → e.release = none) := by
  obtain ⟨v⟩ := e
  cases v with
  | none => simp [DSLExpression.hasValue, DSLExpression.release]
  | some x =>
    simp [DSLExpression.hasValue, DSLExpression.release, DSLExpression.moveExpression]

/-- Release on concrete objects: releasing the expression that holds node 7 returns node 7 and
leaves an empty object; releasing the empty object fails the assertion. -/
theorem release_spec_witness :
    exprSeven.release = some (some ⟨7⟩, exprEmpty) ∧ exprEmpty.release = none :=
  ⟨by
    obtain ⟨x, r, hx, hr, -, hn⟩ := (release_spec exprSeven).1 (by decide)
    obtain ⟨v⟩ := r
    cases hn
    cases hx
    exact hr,
   (release_spec exprEmpty).2 (by decide)⟩

/-- C8: `releaseIfPossible` gives the result and the state of `release` when the object has a
value, returns null and leaves the object unchanged when it has none; either way the object has
no value afterwards, and a second `releaseIfPossible` returns null. -/
theorem releaseIfPossible_spec (e : DSLExpression) :
    (e.hasValue = true → e.release = some e.releaseIfPossible) ∧
    (e.hasValue = false → e.releaseIfPossible = (none, e)) ∧
    e.releaseIfPossible.2.hasValue = false ∧
    e.releaseIfPossible.2.releaseIfPossible.1 = none := by
  obtain ⟨v⟩ := e
  cases v with
  | none =>
    simp [DSLExpression.hasValue, DSLExpression.releaseIfPossible,
      DSLExpression.moveExpression]
  | some x =>
    simp [DSLExpression.hasValue, DSLExpression.release, DSLExpression.releaseIfPossible,
      DSLExpression.moveExpression]

/-- Both release calls on concrete objects: on the expression that holds node 7 both calls return node 7 and
leave the empty object, and on the empty object `releaseIfPossible` returns null. -/
theorem releaseIfPossible_spec_witness :
    exprSeven.release = some exprSeven.releaseIfPossible ∧
    exprSeven.releaseIfPossible = (some ⟨7⟩, exprEmpty) ∧
    exprEmpty.releaseIfPossible = (none, exprEmpty) :=
  ⟨(releaseIfPossible_spec exprSeven).1 (by decide), rfl,
   (releaseIfPossible_spec exprEmpty).2.1 (by decide)⟩

end Skia
